import Mathlib

/-!
# Verification of the advanced marker system

A shallow embedding, in Lean 4, of the marker-positioning code of
`advanced-marker-system.js` (class `AdvancedMarkerSystem`), together with
theorems settling the specification's claims about it.

Modelling conventions:
* Pixel coordinates coming from the DOM (`getBoundingClientRect`,
  `offsetWidth`, `scrollTop`, ...) are rationals (`ℚ`): the browser reports
  finite decimal values and the code's arithmetic on them (`+`, `-`, `/2`,
  `Math.max`, `Math.min`, `Math.round`) is exact on rationals.
* `Math.round` is Mathlib's `round` (`⌊x + 1/2⌋`), which agrees with
  JavaScript's `Math.round` (half-up, towards `+∞`) on all rationals.
* DOM elements are modelled by the geometric attributes the code reads.
  `document.querySelector` is a function `String → Option Element`;
  `null` is `none`.
* Strings are JavaScript strings; `config.preferredPosition` is an
  `Option String` (`none` = the property is absent).  The only falsy
  JavaScript string is `""`, which the code's `||` fallback sends to
  `"top-left"`.
-/

/-- The result of `getBoundingClientRect()`: a viewport-coordinate
rectangle with the four fields the code reads. -/
structure Rect where
  top : ℚ
  left : ℚ
  width : ℚ
  height : ℚ
deriving DecidableEq

/-- A DOM element, restricted to the attributes `calculateOptimalPosition`
reads: its bounding rectangle, its rendered size (`offsetWidth` /
`offsetHeight`) and its current scroll position. -/
structure Element where
  rect : Rect
  offsetWidth : ℚ
  offsetHeight : ℚ
  scrollTop : ℚ
  scrollLeft : ℚ
deriving DecidableEq

/-- The value returned by `calculateOptimalPosition`:
`{top: Math.round(...), left: Math.round(...)}`. -/
structure ResolvedPosition where
  top : ℤ
  left : ℤ
deriving DecidableEq

/-- The `switch (preferredPosition)` block of `calculateOptimalPosition`
(source lines 195–223), acting on the already-computed relative position.
`preferred` is `config.preferredPosition`; the JavaScript
`config.preferredPosition || 'top-left'` falls back to `"top-left"` when
the property is absent (`none`) or the empty string (the only falsy
string).  The `default:` arm of the switch performs the same adjustment
as `case 'top-left':`. -/
def placementAdjust (elementRect : Rect) (preferred : Option String)
    (markerSize offset relativeTop relativeLeft : ℚ) : ℚ × ℚ :=
  let pos := match preferred with
    | none => "top-left"
    | some s => if s = "" then "top-left" else s
  if pos = "top-left" then
    (relativeTop - offset, relativeLeft - offset)
  else if pos = "top-right" then
    (relativeTop - offset, relativeLeft + (elementRect.width - markerSize + offset))
  else if pos = "bottom-left" then
    (relativeTop + (elementRect.height - markerSize + offset), relativeLeft - offset)
  else if pos = "bottom-right" then
    (relativeTop + (elementRect.height - markerSize + offset),
     relativeLeft + (elementRect.width - markerSize + offset))
  else if pos = "center" then
    (relativeTop + (elementRect.height - markerSize) / 2,
     relativeLeft + (elementRect.width - markerSize) / 2)
  else
    (relativeTop - offset, relativeLeft - offset)

/-- `calculateOptimalPosition` up to and including the boundary clamp
(source lines 186–230), i.e. the value of `(relativeTop, relativeLeft)`
just before the scroll-offset correction is added. -/
def preScrollPosition (element leftPanel : Element) (preferred : Option String)
    (markerSize offset : ℚ) : ℚ × ℚ :=
  let relativeTop := element.rect.top - leftPanel.rect.top
  let relativeLeft := element.rect.left - leftPanel.rect.left
  let p := placementAdjust element.rect preferred markerSize offset relativeTop relativeLeft
  (max 0 (min p.1 (leftPanel.offsetHeight - markerSize)),
   max 0 (min p.2 (leftPanel.offsetWidth - markerSize)))

/-- `calculateOptimalPosition(element, leftPanel, config)` (source lines
186–240): relative position, placement adjustment, clamp to the panel's
rendered bounds, scroll-offset correction, and rounding.  `markerSize`
and `offset` are `this.options.markerSize` / `this.options.markerOffset`. -/
def calculateOptimalPosition (element leftPanel : Element)
    (preferred : Option String) (markerSize offset : ℚ) : ResolvedPosition :=
  let p := preScrollPosition element leftPanel preferred markerSize offset
  { top := round (p.1 + leftPanel.scrollTop),
    left := round (p.2 + leftPanel.scrollLeft) }

/-! ## The specification's resolver

The spec (section 4.1) tabulates the resolver as
`resolve(elementRect, containerRect, placement, markerSize, offset,
containerScroll, containerSize)` over an enumerated placement type.  The
definitions below transcribe that tabulated algorithm word for word, to be
compared with `calculateOptimalPosition` above. -/

/-- The spec's `Placement`: "one of
`top-left | top-right | bottom-left | bottom-right | center`". -/
inductive Placement where
  | topLeft
  | topRight
  | bottomLeft
  | bottomRight
  | center
deriving DecidableEq

/-- The string the source's `switch` uses for each spec placement. -/
def placementKey : Placement → String
  | .topLeft => "top-left"
  | .topRight => "top-right"
  | .bottomLeft => "bottom-left"
  | .bottomRight => "bottom-right"
  | .center => "center"

/-- The spec's `clamp(x, lo, hi)`. -/
def clamp (x lo hi : ℚ) : ℚ := max lo (min x hi)

/-- Transcribed from the spec's section 4.1 algorithm, steps 1–5:
base relative position, tabulated placement adjustment, clamp against
`containerSize - markerSize`, add the container scroll, round. -/
def resolveSpec (elementRect containerRect : Rect) (placement : Placement)
    (markerSize offset scrollTop scrollLeft containerWidth containerHeight : ℚ) :
    ResolvedPosition :=
  let relTop := elementRect.top - containerRect.top
  let relLeft := elementRect.left - containerRect.left
  let adjusted : ℚ × ℚ :=
    match placement with
    | .topLeft => (relTop - offset, relLeft - offset)
    | .topRight => (relTop - offset, relLeft + (elementRect.width - markerSize + offset))
    | .bottomLeft => (relTop + (elementRect.height - markerSize + offset), relLeft - offset)
    | .bottomRight => (relTop + (elementRect.height - markerSize + offset),
        relLeft + (elementRect.width - markerSize + offset))
    | .center => (relTop + (elementRect.height - markerSize) / 2,
        relLeft + (elementRect.width - markerSize) / 2)
  let t := clamp adjusted.1 0 (containerHeight - markerSize)
  let l := clamp adjusted.2 0 (containerWidth - markerSize)
  { top := round (t + scrollTop), left := round (l + scrollLeft) }

/-! ## Page-identifier derivation

`getCurrentPageName` (source lines 55–66) takes the last `/`-separated
segment of `window.location.pathname`, applies
`.replace('_N.html', '').replace('.html', '')` — JavaScript
`String.replace` with a string pattern removes the **first occurrence**
of the pattern, wherever it occurs — and finally replaces every dash with
a space (a global regex replace).  Strings are manipulated as `List Char`. -/

/-- `path.split('/').pop()`: the characters after the last `'/'`
(the whole string when it has no `'/'`). -/
def lastSegment (s : List Char) : List Char :=
  s.foldl (fun acc c => if c = '/' then [] else acc ++ [c]) []

/-- JavaScript `s.replace(pat, '')` for a non-regex pattern: remove the
first occurrence of `pat` in `s`; return `s` unchanged when `pat` does
not occur. -/
def removeFirst (pat : List Char) : List Char → List Char
  | [] => []
  | c :: cs =>
    if pat.isPrefixOf (c :: cs) then (c :: cs).drop pat.length
    else c :: removeFirst pat cs

/-- The source's global dash-to-space regex replace on the page name. -/
def dashToSpace (s : List Char) : List Char :=
  s.map fun c => if c = '-' then ' ' else c

/-- `getCurrentPageName()` (source lines 55–66), as a function of
`window.location.pathname`. -/
def getCurrentPageName (path : String) : String :=
  String.mk (dashToSpace
    (removeFirst ".html".toList
      (removeFirst "_N.html".toList (lastSegment path.toList))))

/-- The page-identifier formula as the spec words it ("with a known
suffix stripped"): the last path segment with `_N.html` — else `.html` —
removed when it is a **suffix** of the segment, then dashes to spaces.
To be compared with `getCurrentPageName`. -/
def suffixStripPageName (path : String) : String :=
  let seg := lastSegment path.toList
  let stripped :=
    if "_N.html".toList.isSuffixOf seg then seg.take (seg.length - "_N.html".length)
    else if ".html".toList.isSuffixOf seg then seg.take (seg.length - ".html".length)
    else seg
  String.mk (dashToSpace stripped)

/-- An independent characterisation of `split('/').pop()`: the longest
slash-free suffix. -/
def lastSegmentSpec (s : List Char) : List Char :=
  (s.reverse.takeWhile (fun c => c != '/')).reverse

/-- The index of the first occurrence of `pat` in `s`, if any: the least
`i` such that `pat` is a prefix of `s.drop i`. -/
def firstOccurrenceAt (pat s : List Char) : Option Nat :=
  (List.range (s.length + 1)).find? fun i => pat.isPrefixOf (s.drop i)

/-- An independent characterisation of remove-first-occurrence: excise
`pat.length` characters at the first occurrence index. -/
def removeFirstSpec (pat s : List Char) : List Char :=
  match firstOccurrenceAt pat s with
  | none => s
  | some i => s.take i ++ s.drop (i + pat.length)

/-! ## Orchestration: `updateAllMarkers` and its collaborators

The update pass reads the DOM only through `document.querySelector`,
`document.body`, `window.location.pathname` and the geometric attributes
already modelled on `Element`; `DomState` packages exactly those.
Rendering (`createMarker`) appends an absolutely-positioned `div` of class
`number-marker`; a rendered marker is modelled by the data it carries.
`this.log` writes to the console when `debugMode` is set and is not
modelled — no branch of the pass depends on it. -/

/-- A config item's `selector`: `findElement` (source lines 167–181)
accepts a single query string or an array of fallback query strings. -/
inductive Selector where
  | str (s : String)
  | arr (ss : List String)
deriving DecidableEq

/-- One registered item of a page config, as stored by
`registerPageConfig` (which has filled in `number`). -/
structure ConfigItem where
  selector : Selector
  description : String
  preferredPosition : Option String
  number : Nat
deriving DecidableEq

/-- The marker system's state that the update pass reads:
`this.options.markerSize`, `this.options.markerOffset` and
`this.pageConfigs` (a map from page name to registered items). -/
structure MarkerSystem where
  markerSize : ℚ
  markerOffset : ℚ
  pageConfigs : List (String × List ConfigItem)

/-- The document, restricted to what the update pass reads:
`document.querySelector` (`none` = no match), `document.body` (`none`
models a document whose `body` is still `null`), and
`window.location.pathname`. -/
structure DomState where
  query : String → Option Element
  body : Option Element
  pathname : String

/-- The first selector in `ss` that `query` matches, if any — the loop
bodies of `findElement` (array case) and `getLeftPanel`. -/
def firstMatch (query : String → Option Element) : List String → Option Element
  | [] => none
  | s :: rest =>
    match query s with
    | some e => some e
    | none => firstMatch query rest

/-- `findElement(selector)` (source lines 167–181). -/
def findElement (query : String → Option Element) : Selector → Option Element
  | .str s => query s
  | .arr ss => firstMatch query ss

/-- The candidate container selectors of `getLeftPanel`
(source lines 291–297). -/
def leftPanelSelectors : List String :=
  [".left-panel", ".original-content", ".container .left-panel",
   ".container > div:first-child", ".main-content"]

/-- `getLeftPanel()` (source lines 289–306): the first candidate selector
that matches, else `document.body`. -/
def getLeftPanel (dom : DomState) : Option Element :=
  match firstMatch dom.query leftPanelSelectors with
  | some e => some e
  | none => dom.body

/-- A rendered marker: the `div.number-marker` that `createMarker`
appends, reduced to the data it carries. -/
structure Marker where
  position : ResolvedPosition
  number : Nat
  description : String
deriving DecidableEq

/-- The `config.forEach` loop of `updateAllMarkers` (source lines
153–161): each item whose selector matches contributes one marker at its
computed position, in order; an unmatched item is logged and skipped. -/
def renderMarkers (sys : MarkerSystem) (dom : DomState) (leftPanel : Element)
    (config : List ConfigItem) : List Marker :=
  config.foldl
    (fun acc item =>
      match findElement dom.query item.selector with
      | some element =>
        acc ++ [{ position := calculateOptimalPosition element leftPanel
                    item.preferredPosition sys.markerSize sys.markerOffset,
                  number := item.number,
                  description := item.description }]
      | none => acc)
    []

/-- The outcome of one `updateAllMarkers()` call: which early-return
branch was taken, or the list of markers created. -/
inductive UpdateResult where
  | noConfig
  | noPanel
  | rendered (markers : List Marker)
deriving DecidableEq

/-- `updateAllMarkers()` (source lines 134–162): look up the current
page's config (early return if unregistered), find the container (early
return if `getLeftPanel` yields `null`), clear existing markers, then
render one marker per matched item.  A total function: no branch throws. -/
def updateAllMarkers (sys : MarkerSystem) (dom : DomState) : UpdateResult :=
  let pageName := getCurrentPageName dom.pathname
  match List.lookup pageName sys.pageConfigs with
  | none => .noConfig
  | some config =>
    match getLeftPanel dom with
    | none => .noPanel
    | some leftPanel => .rendered (renderMarkers sys dom leftPanel config)

/-- The document together with the set of `.number-marker` elements
currently in it — the state one full update pass transforms. -/
structure PageState where
  dom : DomState
  rendered : List Marker

/-- One full update pass as a state transformer.  On the early-return
branches the existing markers are untouched (the early returns happen
before `clearExistingMarkers`); otherwise `clearExistingMarkers` (source
lines 311–314) removes every `.number-marker` in the document and the
render loop creates the new list, so the rendered set is replaced
wholesale.  The pass does not touch the layout (`dom`): markers are
absolutely positioned overlays. -/
def runUpdatePass (sys : MarkerSystem) (st : PageState) : PageState :=
  match updateAllMarkers sys st.dom with
  | .noConfig => st
  | .noPanel => st
  | .rendered ms => { st with rendered := ms }

/-! ## The debounce wiring

`debounce(func, wait)` (source lines 348–358) allocates a fresh `timeout`
variable and **returns** a closure; only *calling* that closure clears the
pending timer and schedules `func` after `wait` ms.  The model below
tracks the side effects on the browser's timer queue that evaluating each
expression produces. -/

/-- A side effect on the browser timer queue. -/
inductive TimerEffect where
  | clearPending
  | schedule (delayMs : Nat)
deriving DecidableEq

/-- The closure returned by `debounce(func, wait)`. -/
structure DebouncedFn where
  waitMs : Nat
deriving DecidableEq

/-- Evaluating `this.debounce(func, wait)` itself: it only allocates the
closure; no timer is cleared or scheduled yet. -/
def debounceCall (wait : Nat) : DebouncedFn × List TimerEffect :=
  ({ waitMs := wait }, [])

/-- Invoking the closure `debounce` returned (`executedFunction`): clear
the pending timeout and schedule `func` to run after `wait` ms. -/
def DebouncedFn.invoke (d : DebouncedFn) : List TimerEffect :=
  [.clearPending, .schedule d.waitMs]

/-- The timer effects of the resize listener body (source line 30):
`() => this.debounce(() => this.updateAllMarkers(), 250)` evaluates
`this.debounce(...)` and discards the returned closure without invoking
it. -/
def resizeListenerEffects : List TimerEffect :=
  (debounceCall 250).2

/-- The timer effects of the `MutationObserver` callback (source lines
322–324): `this.debounce(() => this.updateAllMarkers(), 500)`, again with
the returned closure discarded. -/
def mutationCallbackEffects : List TimerEffect :=
  (debounceCall 500).2

/-! ## Claims C1–C5: the position resolver -/

/-- C1 (counterexample): with a positive container size smaller than the
marker (`offsetWidth = offsetHeight = 1 < 24 = markerSize`), the clamped
pre-scroll output is `(0, 0)`, which does **not** satisfy
`top ≤ containerHeight - markerSize` (that bound is `-23`): the claim as
stated fails. -/
theorem C1_counterexample :
    ¬ (0 ≤ (preScrollPosition ⟨⟨0, 0, 10, 10⟩, 0, 0, 0, 0⟩ ⟨⟨0, 0, 0, 0⟩, 1, 1, 0, 0⟩
            (some "top-left") 24 8).1 ∧
       (preScrollPosition ⟨⟨0, 0, 10, 10⟩, 0, 0, 0, 0⟩ ⟨⟨0, 0, 0, 0⟩, 1, 1, 0, 0⟩
            (some "top-left") 24 8).1 ≤ (1 : ℚ) - 24 ∧
       0 ≤ (preScrollPosition ⟨⟨0, 0, 10, 10⟩, 0, 0, 0, 0⟩ ⟨⟨0, 0, 0, 0⟩, 1, 1, 0, 0⟩
            (some "top-left") 24 8).2 ∧
       (preScrollPosition ⟨⟨0, 0, 10, 10⟩, 0, 0, 0, 0⟩ ⟨⟨0, 0, 0, 0⟩, 1, 1, 0, 0⟩
            (some "top-left") 24 8).2 ≤ (1 : ℚ) - 24) := by
  norm_num [preScrollPosition, placementAdjust]

/-- C1 (amended): for every element and container rect, every placement,
positive `markerSize` and `offset`, and container size **at least the
marker size in both axes**, the resolver's pre-scroll output satisfies
`0 ≤ top ≤ containerHeight - markerSize` and
`0 ≤ left ≤ containerWidth - markerSize`. -/
theorem C1_clamp_bounds (element leftPanel : Element) (preferred : Option String)
    (markerSize offset : ℚ) (hms : 0 < markerSize) (hoff : 0 < offset)
    (hH : markerSize ≤ leftPanel.offsetHeight) (hW : markerSize ≤ leftPanel.offsetWidth) :
    0 ≤ (preScrollPosition element leftPanel preferred markerSize offset).1 ∧
    (preScrollPosition element leftPanel preferred markerSize offset).1 ≤
      leftPanel.offsetHeight - markerSize ∧
    0 ≤ (preScrollPosition element leftPanel preferred markerSize offset).2 ∧
    (preScrollPosition element leftPanel preferred markerSize offset).2 ≤
      leftPanel.offsetWidth - markerSize := by
  unfold preScrollPosition
  refine ⟨le_max_left _ _, ?_, le_max_left _ _, ?_⟩
  · exact max_le (by linarith) (min_le_right _ _)
  · exact max_le (by linarith) (min_le_right _ _)

/-- C1 (witness): the amended bounds at a concrete instance. -/
theorem C1_clamp_bounds_witness :
    (0 : ℚ) < 24 ∧ (0 : ℚ) < 8 ∧ (24 : ℚ) ≤ 100 ∧ (24 : ℚ) ≤ 200 ∧
    (0 ≤ (preScrollPosition ⟨⟨30, 40, 50, 50⟩, 0, 0, 0, 0⟩ ⟨⟨10, 10, 0, 0⟩, 200, 100, 0, 0⟩
          (some "bottom-right") 24 8).1 ∧
     (preScrollPosition ⟨⟨30, 40, 50, 50⟩, 0, 0, 0, 0⟩ ⟨⟨10, 10, 0, 0⟩, 200, 100, 0, 0⟩
          (some "bottom-right") 24 8).1 ≤ (100 : ℚ) - 24 ∧
     0 ≤ (preScrollPosition ⟨⟨30, 40, 50, 50⟩, 0, 0, 0, 0⟩ ⟨⟨10, 10, 0, 0⟩, 200, 100, 0, 0⟩
          (some "bottom-right") 24 8).2 ∧
     (preScrollPosition ⟨⟨30, 40, 50, 50⟩, 0, 0, 0, 0⟩ ⟨⟨10, 10, 0, 0⟩, 200, 100, 0, 0⟩
          (some "bottom-right") 24 8).2 ≤ (200 : ℚ) - 24) :=
  ⟨by norm_num, by norm_num, by norm_num, by norm_num,
   C1_clamp_bounds ⟨⟨30, 40, 50, 50⟩, 0, 0, 0, 0⟩ ⟨⟨10, 10, 0, 0⟩, 200, 100, 0, 0⟩
     (some "bottom-right") 24 8 (by norm_num) (by norm_num) (by norm_num) (by norm_num)⟩

/-- C2: for every input and each of the five enumerated placements, the
source's `calculateOptimalPosition` computes exactly the algorithm the
spec tabulates (`resolveSpec`): base relative position, the tabulated
placement adjustment, clamp, scroll correction, rounding.  Moreover the
spec's worked `top-right` example holds: element width `100` at relative
left `0`, `markerSize = 24`, `offset = 8` give pre-clamp left
`0 + 100 - 24 + 8 = 84`. -/
theorem C2_resolver_algorithm :
    (∀ (element leftPanel : Element) (markerSize offset : ℚ) (p : Placement),
      calculateOptimalPosition element leftPanel (some (placementKey p)) markerSize offset =
        resolveSpec element.rect leftPanel.rect p markerSize offset
          leftPanel.scrollTop leftPanel.scrollLeft
          leftPanel.offsetWidth leftPanel.offsetHeight) ∧
    (placementAdjust ⟨0, 0, 100, 40⟩ (some "top-right") 24 8 0 0).2 = 84 := by
  constructor
  · intro element leftPanel markerSize offset p
    cases p <;> rfl
  · unfold placementAdjust
    dsimp only
    rw [if_neg (by decide : ¬ ("top-right" : String) = ""),
      if_neg (by decide : ¬ ("top-right" : String) = "top-left"),
      if_pos (rfl : ("top-right" : String) = "top-right")]
    norm_num

/-- C3: for every input, a container scroll of `{top: 50, left: 0}`
shifts the resolver's result by exactly `(50, 0)` relative to the
zero-scroll result; and the shifted value is not clamped again (at the
concrete input below the shifted top is `126`, beyond the clamp bound
`containerHeight - markerSize = 76`). -/
theorem C3_scroll_shift :
    (∀ (element leftPanel : Element) (preferred : Option String) (markerSize offset : ℚ),
      calculateOptimalPosition element { leftPanel with scrollTop := 50, scrollLeft := 0 }
          preferred markerSize offset =
        { top := (calculateOptimalPosition element
              { leftPanel with scrollTop := 0, scrollLeft := 0 }
              preferred markerSize offset).top + 50,
          left := (calculateOptimalPosition element
              { leftPanel with scrollTop := 0, scrollLeft := 0 }
              preferred markerSize offset).left + 0 }) ∧
    (calculateOptimalPosition ⟨⟨200, 0, 10, 10⟩, 0, 0, 0, 0⟩ ⟨⟨0, 0, 0, 0⟩, 100, 100, 50, 0⟩
        (some "top-left") 24 8 = { top := 126, left := 0 } ∧
      ¬ ((126 : ℚ) ≤ 100 - 24)) := by
  refine ⟨?_, ?_, by norm_num⟩
  · intro element leftPanel preferred markerSize offset
    have hps : preScrollPosition element { leftPanel with scrollTop := 50, scrollLeft := 0 }
          preferred markerSize offset
        = preScrollPosition element { leftPanel with scrollTop := 0, scrollLeft := 0 }
          preferred markerSize offset := rfl
    have h50 : (50 : ℚ) = ((50 : ℤ) : ℚ) := by norm_num
    simp only [calculateOptimalPosition, hps, ResolvedPosition.mk.injEq, add_zero]
    rw [h50, round_add_int]
    exact ⟨rfl, trivial⟩
  · norm_num [calculateOptimalPosition, preScrollPosition, placementAdjust]

/-- C4: a `preferredPosition` that is none of the five enumerated values
— and likewise a missing `preferredPosition` — yields exactly the result
of `top-left` (the `||` fallback and the `default:` switch arm). -/
theorem C4_placement_fallback :
    (∀ (element leftPanel : Element) (markerSize offset : ℚ) (s : String),
      s ≠ "top-left" → s ≠ "top-right" → s ≠ "bottom-left" →
      s ≠ "bottom-right" → s ≠ "center" →
      calculateOptimalPosition element leftPanel (some s) markerSize offset =
        calculateOptimalPosition element leftPanel (some "top-left") markerSize offset) ∧
    (∀ (element leftPanel : Element) (markerSize offset : ℚ),
      calculateOptimalPosition element leftPanel none markerSize offset =
        calculateOptimalPosition element leftPanel (some "top-left") markerSize offset) := by
  have key : ∀ (rect : Rect) (ms off rt rl : ℚ) (s : String),
      s ≠ "top-left" → s ≠ "top-right" → s ≠ "bottom-left" →
      s ≠ "bottom-right" → s ≠ "center" →
      placementAdjust rect (some s) ms off rt rl =
        placementAdjust rect (some "top-left") ms off rt rl := by
    intro rect ms off rt rl s h1 h2 h3 h4 h5
    unfold placementAdjust
    by_cases he : s = ""
    · subst he; simp
    · simp [he, h1, h2, h3, h4, h5]
  constructor
  · intro element leftPanel markerSize offset s h1 h2 h3 h4 h5
    simp only [calculateOptimalPosition, preScrollPosition]
    rw [key element.rect markerSize offset _ _ s h1 h2 h3 h4 h5]
  · intro element leftPanel markerSize offset
    simp only [calculateOptimalPosition, preScrollPosition]
    rw [show ∀ rt rl, placementAdjust element.rect none markerSize offset rt rl =
      placementAdjust element.rect (some "top-left") markerSize offset rt rl from
      fun rt rl => rfl]

/-- C4 (witness): an unrecognized placement string at a concrete input. -/
theorem C4_placement_fallback_witness :
    calculateOptimalPosition ⟨⟨30, 40, 50, 60⟩, 0, 0, 0, 0⟩ ⟨⟨10, 10, 0, 0⟩, 200, 100, 5, 7⟩
        (some "banana") 24 8 =
      calculateOptimalPosition ⟨⟨30, 40, 50, 60⟩, 0, 0, 0, 0⟩ ⟨⟨10, 10, 0, 0⟩, 200, 100, 5, 7⟩
        (some "top-left") 24 8 :=
  C4_placement_fallback.1 ⟨⟨30, 40, 50, 60⟩, 0, 0, 0, 0⟩ ⟨⟨10, 10, 0, 0⟩, 200, 100, 5, 7⟩
    24 8 "banana" (by decide) (by decide) (by decide) (by decide) (by decide)

/-- C5 (counterexample): for an element exactly as large as the marker but
lying above the container (relative top `-5`), the full resolver with
`center` placement returns top `0` (the clamp fires), **not** the
element's relative position: the claim as stated over the resolver's
output fails. -/
theorem C5_counterexample :
    ¬ ((((calculateOptimalPosition ⟨⟨-5, 0, 24, 24⟩, 0, 0, 0, 0⟩ ⟨⟨0, 0, 0, 0⟩, 100, 100, 0, 0⟩
            (some "center") 24 8).top : ℚ) = (-5 : ℚ) - 0) ∧
       (((calculateOptimalPosition ⟨⟨-5, 0, 24, 24⟩, 0, 0, 0, 0⟩ ⟨⟨0, 0, 0, 0⟩, 100, 100, 0, 0⟩
            (some "center") 24 8).left : ℚ) = (0 : ℚ) - 0)) := by
  have hval : calculateOptimalPosition ⟨⟨-5, 0, 24, 24⟩, 0, 0, 0, 0⟩ ⟨⟨0, 0, 0, 0⟩, 100, 100, 0, 0⟩
      (some "center") 24 8 = ⟨0, 0⟩ := by
    simp only [calculateOptimalPosition, preScrollPosition, placementAdjust]
    rw [if_neg (by decide : ¬ ("center" : String) = ""),
      if_neg (by decide : ¬ ("center" : String) = "top-left"),
      if_neg (by decide : ¬ ("center" : String) = "top-right"),
      if_neg (by decide : ¬ ("center" : String) = "bottom-left"),
      if_neg (by decide : ¬ ("center" : String) = "bottom-right"),
      if_pos (rfl : ("center" : String) = "center")]
    norm_num
  simp only [hval]
  norm_num

/-- C5 (amended): for an element whose width and height both equal
`markerSize`, the `center` adjustment is zero — the placement-adjusted
position is exactly the element's position relative to the container —
and when additionally the container scroll is zero and that relative
position lies within the clamp bounds, the resolver returns exactly the
(rounded) relative position. -/
theorem C5_center_identity (element leftPanel : Element) (markerSize offset : ℚ)
    (hw : element.rect.width = markerSize) (hh : element.rect.height = markerSize) :
    placementAdjust element.rect (some "center") markerSize offset
        (element.rect.top - leftPanel.rect.top) (element.rect.left - leftPanel.rect.left)
      = (element.rect.top - leftPanel.rect.top, element.rect.left - leftPanel.rect.left) ∧
    (leftPanel.scrollTop = 0 → leftPanel.scrollLeft = 0 →
     0 ≤ element.rect.top - leftPanel.rect.top →
     element.rect.top - leftPanel.rect.top ≤ leftPanel.offsetHeight - markerSize →
     0 ≤ element.rect.left - leftPanel.rect.left →
     element.rect.left - leftPanel.rect.left ≤ leftPanel.offsetWidth - markerSize →
     calculateOptimalPosition element leftPanel (some "center") markerSize offset =
       { top := round (element.rect.top - leftPanel.rect.top),
         left := round (element.rect.left - leftPanel.rect.left) }) := by
  have hadj : placementAdjust element.rect (some "center") markerSize offset
      (element.rect.top - leftPanel.rect.top) (element.rect.left - leftPanel.rect.left)
      = (element.rect.top - leftPanel.rect.top, element.rect.left - leftPanel.rect.left) := by
    unfold placementAdjust
    dsimp only
    rw [if_neg (by decide : ¬ ("center" : String) = ""),
      if_neg (by decide : ¬ ("center" : String) = "top-left"),
      if_neg (by decide : ¬ ("center" : String) = "top-right"),
      if_neg (by decide : ¬ ("center" : String) = "bottom-left"),
      if_neg (by decide : ¬ ("center" : String) = "bottom-right"),
      if_pos (rfl : ("center" : String) = "center")]
    rw [hw, hh]
    norm_num
  refine ⟨hadj, ?_⟩
  intro hst hsl h0t hbt h0l hbl
  simp only [calculateOptimalPosition, preScrollPosition, hadj]
  rw [min_eq_left hbt, max_eq_right h0t, min_eq_left hbl, max_eq_right h0l,
    hst, hsl, add_zero, add_zero]

/-- C5 (witness): the amended statement at a concrete instance. -/
theorem C5_center_identity_witness :
    calculateOptimalPosition ⟨⟨20, 30, 24, 24⟩, 0, 0, 0, 0⟩ ⟨⟨10, 10, 5, 5⟩, 200, 100, 0, 0⟩
        (some "center") 24 8 = ⟨10, 20⟩ := by
  have h := (C5_center_identity ⟨⟨20, 30, 24, 24⟩, 0, 0, 0, 0⟩
      ⟨⟨10, 10, 5, 5⟩, 200, 100, 0, 0⟩ 24 8 rfl rfl).2
    rfl rfl (by norm_num) (by norm_num) (by norm_num) (by norm_num)
  rw [h]
  norm_num

/-! ## Claims C6, C7, C9, C10: orchestration -/

/-- Folding over a list skips an item the step function fixes: the
`forEach` body contributes nothing for that item and the remaining items
are still processed. -/
theorem foldl_skip {α β : Type} (f : β → α → β) (item : α) (post : List α)
    (hf : ∀ acc, f acc item = acc) :
    ∀ (pre : List α) (acc : β),
      List.foldl f acc (pre ++ item :: post) = List.foldl f acc (pre ++ post) := by
  intro pre
  induction pre with
  | nil => intro acc; simp [hf]
  | cons x xs ih => intro acc; simp only [List.cons_append, List.foldl_cons]; exact ih _

/-- C6: the update pass is non-fatal.  An unregistered page identifier
makes the pass a no-op that renders zero markers (`noConfig`); a missing
container makes it a no-op (`noPanel`); an item whose anchor element is
missing is skipped while every other item is still rendered.
`updateAllMarkers` is a total function — no branch raises. -/
theorem C6_nonfatal_pass :
    (∀ (sys : MarkerSystem) (dom : DomState),
      List.lookup (getCurrentPageName dom.pathname) sys.pageConfigs = none →
      updateAllMarkers sys dom = .noConfig) ∧
    (∀ (sys : MarkerSystem) (dom : DomState) (config : List ConfigItem),
      List.lookup (getCurrentPageName dom.pathname) sys.pageConfigs = some config →
      getLeftPanel dom = none →
      updateAllMarkers sys dom = .noPanel) ∧
    (∀ (sys : MarkerSystem) (dom : DomState) (leftPanel : Element)
       (pre post : List ConfigItem) (item : ConfigItem),
      findElement dom.query item.selector = none →
      renderMarkers sys dom leftPanel (pre ++ item :: post) =
        renderMarkers sys dom leftPanel (pre ++ post)) := by
  refine ⟨?_, ?_, ?_⟩
  · intro sys dom h
    simp only [updateAllMarkers, h]
  · intro sys dom config h hp
    simp only [updateAllMarkers, h, hp]
  · intro sys dom leftPanel pre post item h
    unfold renderMarkers
    exact foldl_skip _ item post (fun acc => by simp [h]) pre []

/-- C6 (witness): the three skip branches at concrete page states. -/
theorem C6_nonfatal_pass_witness :
    updateAllMarkers ⟨24, 8, []⟩ ⟨fun _ => none, none, "/unknown-page.html"⟩ = .noConfig ∧
    updateAllMarkers ⟨24, 8, [("page", [])]⟩ ⟨fun _ => none, none, "/page.html"⟩ = .noPanel ∧
    renderMarkers ⟨24, 8, []⟩ ⟨fun _ => none, none, "/unknown-page.html"⟩
        ⟨⟨0, 0, 0, 0⟩, 100, 100, 0, 0⟩ ([] ++ ⟨.str "#x", "d", none, 1⟩ :: []) =
      renderMarkers ⟨24, 8, []⟩ ⟨fun _ => none, none, "/unknown-page.html"⟩
        ⟨⟨0, 0, 0, 0⟩, 100, 100, 0, 0⟩ ([] ++ []) :=
  ⟨C6_nonfatal_pass.1 ⟨24, 8, []⟩ ⟨fun _ => none, none, "/unknown-page.html"⟩ rfl,
   C6_nonfatal_pass.2.1 ⟨24, 8, [("page", [])]⟩ ⟨fun _ => none, none, "/page.html"⟩ [] rfl rfl,
   C6_nonfatal_pass.2.2 ⟨24, 8, []⟩ ⟨fun _ => none, none, "/unknown-page.html"⟩
     ⟨⟨0, 0, 0, 0⟩, 100, 100, 0, 0⟩ [] [] ⟨.str "#x", "d", none, 1⟩ rfl⟩

/-- C7: the resize listener and the mutation-observer callback evaluate
`this.debounce(() => this.updateAllMarkers(), wait)` and **discard** the
closure `debounce` returns without ever invoking it, so they produce no
timer effects at all: no recompute is scheduled after a resize or
mutation event.  (Invoking the returned closure would have produced
`[clearPending, schedule wait]`.) -/
theorem C7_debounce_never_invoked :
    resizeListenerEffects = [] ∧ mutationCallbackEffects = [] ∧
    (∀ d : DebouncedFn, d.invoke = [.clearPending, .schedule d.waitMs]) :=
  ⟨rfl, rfl, fun _ => rfl⟩

/-- C9: one full update pass is idempotent on the page state: with the
layout (`dom`) unchanged, running the pass twice leaves exactly the
markers of a single run — the second pass removes precisely the markers
the first created and recreates them at the same positions. -/
theorem C9_pass_idempotent (sys : MarkerSystem) (st : PageState) :
    runUpdatePass sys (runUpdatePass sys st) = runUpdatePass sys st := by
  unfold runUpdatePass
  cases h : updateAllMarkers sys st.dom with
  | noConfig => simp [h]
  | noPanel => simp [h]
  | rendered ms => simp [h]

/-- C10 (counterexample): in a document state with no `body` (as during
head parsing) and no matching container selector, `getLeftPanel` returns
`null` and the `'Left panel not found'` branch **is** reached: the claim
that it is unreachable for every document state fails. -/
theorem C10_counterexample :
    getLeftPanel ⟨fun _ => none, none, "/2-1-home.html"⟩ = none ∧
    updateAllMarkers ⟨24, 8, [("2 1 home", [])]⟩
        ⟨fun _ => none, none, "/2-1-home.html"⟩ = .noPanel :=
  ⟨rfl, rfl⟩

/-- C10 (amended): in every document state whose `document.body` is
present, `getLeftPanel` returns an element (a selector match or the body
fallback), so the `'Left panel not found'` skip branch is unreachable and
a container is always available. -/
theorem C10_body_fallback (dom : DomState) (b : Element) (hb : dom.body = some b) :
    (∃ e, getLeftPanel dom = some e) ∧ ∀ sys, updateAllMarkers sys dom ≠ .noPanel := by
  have hlp : ∃ e, getLeftPanel dom = some e := by
    unfold getLeftPanel
    cases hfm : firstMatch dom.query leftPanelSelectors with
    | none => exact ⟨b, by simp [hfm, hb]⟩
    | some e => exact ⟨e, by simp [hfm]⟩
  obtain ⟨e, he⟩ := hlp
  refine ⟨⟨e, he⟩, ?_⟩
  intro sys
  simp only [updateAllMarkers, he]
  cases List.lookup (getCurrentPageName dom.pathname) sys.pageConfigs <;> simp

/-- C10 (witness): the amended statement in a concrete document state
with a body present. -/
theorem C10_body_fallback_witness :
    (∃ e, getLeftPanel ⟨fun _ => none, some ⟨⟨0, 0, 0, 0⟩, 100, 100, 0, 0⟩, "/p.html"⟩ = some e) ∧
    ∀ sys, updateAllMarkers sys
        ⟨fun _ => none, some ⟨⟨0, 0, 0, 0⟩, 100, 100, 0, 0⟩, "/p.html"⟩ ≠ .noPanel :=
  C10_body_fallback ⟨fun _ => none, some ⟨⟨0, 0, 0, 0⟩, 100, 100, 0, 0⟩, "/p.html"⟩
    ⟨⟨0, 0, 0, 0⟩, 100, 100, 0, 0⟩ rfl

/-! ## Claim C8: page-identifier derivation -/

/-- `firstOccurrenceAt` steps through a cons cell: a hit at the head, or
every later occurrence shifted by one. -/
theorem firstOccurrenceAt_cons (pat : List Char) (c : Char) (cs : List Char) :
    firstOccurrenceAt pat (c :: cs) =
      if pat.isPrefixOf (c :: cs) then some 0
      else (firstOccurrenceAt pat cs).map (· + 1) := by
  unfold firstOccurrenceAt
  rw [show (c :: cs).length + 1 = (cs.length + 1) + 1 from rfl,
    List.range_succ_eq_map]
  cases hp : pat.isPrefixOf (c :: cs) with
  | true =>
    rw [if_pos (by simp [hp])]
    rw [List.find?_cons_of_pos _ (by simp [hp])]
  | false =>
    rw [if_neg (by simp [hp])]
    rw [List.find?_cons_of_neg _ (by simp [hp])]
    rw [List.find?_map]
    have hpred : ((fun i => pat.isPrefixOf ((c :: cs).drop i)) ∘ Nat.succ)
        = fun i => pat.isPrefixOf (cs.drop i) := by
      funext i; rfl
    rw [hpred]

/-- The scanning `removeFirst` (JavaScript `replace(pat, '')`) equals the
index-based characterisation `removeFirstSpec`. -/
theorem removeFirst_eq_spec (pat s : List Char) : removeFirst pat s = removeFirstSpec pat s := by
  induction s with
  | nil => cases pat <;> rfl
  | cons c cs ih =>
    unfold removeFirst removeFirstSpec
    rw [firstOccurrenceAt_cons]
    by_cases hp : pat.isPrefixOf (c :: cs)
    · rw [if_pos hp, if_pos hp]
      simp
    · rw [if_neg hp, if_neg hp]
      rw [ih]
      unfold removeFirstSpec
      cases h : firstOccurrenceAt pat cs with
      | none => simp
      | some i =>
        simp only [Option.map_some', List.take_succ_cons]
        rw [show i + 1 + pat.length = (i + pat.length) + 1 from by omega,
          List.drop_succ_cons, List.cons_append]

/-- The fold implementing `split('/').pop()` equals the longest
slash-free suffix. -/
theorem lastSegment_eq_spec (s : List Char) : lastSegment s = lastSegmentSpec s := by
  induction s using List.reverseRecOn with
  | nil => rfl
  | append_singleton xs c ih =>
    unfold lastSegment lastSegmentSpec at ih ⊢
    rw [List.foldl_append, List.reverse_append]
    simp only [List.foldl_cons, List.foldl_nil, List.reverse_singleton, List.singleton_append,
      List.takeWhile_cons]
    by_cases hc : c = '/'
    · simp [hc]
    · simp only [hc, if_false, bne_iff_ne, ne_eq, not_false_eq_true, if_true]
      simp only [List.reverse_cons]
      rw [ih]

/-- C8 (counterexample): on the path `/p/a.html_N.html` the code yields
`"a"` — `replace` removes the first occurrence of `_N.html` in the middle
of the name, then the first `.html` — while the claim's suffix-stripping
formula yields `"a.html"`: the claim as stated fails. -/
theorem C8_counterexample :
    getCurrentPageName "/p/a.html_N.html" = "a" ∧
    suffixStripPageName "/p/a.html_N.html" = "a.html" ∧
    getCurrentPageName "/p/a.html_N.html" ≠ suffixStripPageName "/p/a.html_N.html" :=
  ⟨rfl, rfl, by decide⟩

/-- C8 (amended): for every URL path, the page identifier is the last
`/`-separated segment (the longest slash-free suffix) with the **first
occurrence** of `_N.html` removed, then the first occurrence of `.html`
removed — wherever they occur, not only as a suffix — and every dash
replaced by a space. -/
theorem C8_first_occurrence_removal (path : String) :
    getCurrentPageName path =
      String.mk (dashToSpace
        (removeFirstSpec ".html".toList
          (removeFirstSpec "_N.html".toList (lastSegmentSpec path.toList)))) := by
  unfold getCurrentPageName
  rw [lastSegment_eq_spec, removeFirst_eq_spec, removeFirst_eq_spec]
